import Mathlib

/-!
Verification of the Kaggle MCP server's adapter layer
(`src/kaggle_mcp/server.py`) against its specification.

The embedding below translates the credential bootstrap (`init_kaggle`) and
the adapter functions the claims cite.  Python values that can appear in a
response payload are modelled by `Val`; a Python `dict` is an association
list read with last-binding-wins lookup (`pyGet`), which matches the
semantics of a Python dict display such as
`{"status": "error", "message": m, **response_dict}` where the spliced
entries override the literal ones.  The local filesystem is a `FS` record of
existing directories and files; the wrapped Kaggle API client (the
"delegate") is abstracted by an `Except String _` argument: `.error e`
models the delegate call raising an exception whose `str` is `e`, `.ok r`
models it returning `r`, already coerced to its attribute mapping (the
source's `to_dict()` / `dict(...)` / `__dict__` coercion).  Each adapter
returns its envelope together with whether the delegate was invoked and
(where the adapter touches the filesystem) the resulting filesystem.
-/

/-- A Python value as it can occur in a coerced API response payload. -/
inductive Val where
  | vnone : Val
  | str : String → Val
  | nat : Nat → Val
  | bool : Bool → Val
  | list : List Val → Val
  | dict : List (String × Val) → Val

/-- Python truthiness (`bool(v)`), as used by `if response_dict.get("error"):`
and by the `invalid` field scan. -/
def Val.truthy : Val → Bool
  | .vnone => false
  | .str s => !(s == "")
  | .nat n => !(n == 0)
  | .bool b => b
  | .list xs => !xs.isEmpty
  | .dict d => !d.isEmpty

/-- A Python mapping: an association list whose later bindings shadow earlier
ones, matching dict displays with `**` splices. -/
abbrev Dict := List (String × Val)

/-- Lookup in a `Dict`: the value of the last binding of `k`, if any
(Python `d[k]` / key membership). -/
def pyGet : Dict → String → Option Val
  | [], _ => none
  | (k1, v) :: rest, k =>
    match pyGet rest k with
    | some v2 => some v2
    | none => if k1 == k then some v else none

/-- Python `d.get(k, dflt)`. -/
def pyGetD (d : Dict) (k : String) (dflt : Val) : Val :=
  (pyGet d k).getD dflt

/-- Python `d[k] = v` on a mapping value (lookup-equivalent form: the new
binding is appended and shadows any earlier one). -/
def pySet (d : Dict) (k : String) (v : Val) : Dict :=
  d ++ [(k, v)]

/-- Python `v == ""`: true exactly when `v` is the empty string (comparison
of any non-string value with `""` is `False` in Python). -/
def Val.eqEmptyStr : Val → Bool
  | .str s => s == ""
  | _ => false

/-- Python `s.startswith(p)` (stated on the underlying character lists so
that it evaluates by reduction). -/
def pyStartsWith (s p : String) : Bool := p.data.isPrefixOf s.data

/-- The scan `{k: v for k, v in d.items() if k.startswith("invalid") and v}`
of `kernel_push` is non-empty. -/
def hasInvalidField (d : Dict) : Bool :=
  d.any (fun p => pyStartsWith p.1 "invalid" && p.2.truthy)

/-- One file of the modelled filesystem: its path, its content (the parsed
form of what was written) and its permission bits. -/
structure FSFile where
  path : String
  content : Val
  mode : Nat

/-- The local filesystem: which directories and files exist.  Paths are
treated as atoms. -/
structure FS where
  dirs : List String
  files : List FSFile

/-- `os.path.isdir`. -/
def FS.isdir (fs : FS) (p : String) : Bool := fs.dirs.contains p

/-- `os.path.exists` (true for a file or a directory at `p`). -/
def FS.pathExists (fs : FS) (p : String) : Bool :=
  fs.files.any (fun f => f.path == p) || fs.dirs.contains p

/-- `os.makedirs(p, exist_ok=True)`. -/
def FS.makedirs (fs : FS) (p : String) : FS :=
  if fs.dirs.contains p then fs else { fs with dirs := p :: fs.dirs }

/-- `open(p, "w")` followed by writing `v`: creates or silently overwrites
the file at `p` (default creation mode 0o644). -/
def FS.write (fs : FS) (p : String) (v : Val) : FS :=
  { fs with
    files := { path := p, content := v, mode := 0o644 }
      :: fs.files.filter (fun f => !(f.path == p)) }

/-- `os.chmod(p, m)`. -/
def FS.chmod (fs : FS) (p : String) (m : Nat) : FS :=
  { fs with
    files := fs.files.map (fun f => if f.path == p then { f with mode := m } else f) }

/-- The file at `p`, if one exists. -/
def FS.getFile (fs : FS) (p : String) : Option FSFile :=
  fs.files.find? (fun f => f.path == p)

/-- `os.path.join(a, b)` for a relative `b`. -/
def joinPath (a b : String) : String := a ++ "/" ++ b

/-- `os.path.abspath(p)` relative to the working directory `cwd`. -/
def abspath (cwd p : String) : String :=
  if pyStartsWith p "/" then p else cwd ++ "/" ++ p

/-- Python `path or os.getcwd()` on an optional string argument. -/
def pyOrStr (o : Option String) (dflt : String) : String :=
  match o with
  | none => dflt
  | some s => if s == "" then dflt else s

/-- Python `if path is None: path = os.getcwd()`. -/
def pathOrCwd (o : Option String) (cwd : String) : String := o.getD cwd

/-- The validation `if not x or '/' not in x:` shared by the kernel and
model adapters. -/
def missingSlash (s : String) : Bool := s == "" || !(s.data.contains '/')

/-- The validation `if not folder or not os.path.isdir(folder):`. -/
def badFolder (folder : String) (fs : FS) : Bool :=
  folder == "" || !(fs.isdir folder)

/-- Python `s.split('/')` on the underlying character list: the `/`-separated
segments of a string (splitting the empty string yields one empty
segment). -/
def splitSegs : List Char → List (List Char)
  | [] => [[]]
  | c :: rest =>
    match splitSegs rest with
    | seg :: segs => if c == '/' then [] :: seg :: segs else (c :: seg) :: segs
    | [] => [[]]

/-- The regex `^[^/]+/[^/]+$` of `kernel_list_files`: exactly two non-empty
`/`-separated segments. -/
def matchOwnerSlug (s : String) : Bool :=
  (splitSegs s.data).length == 2 && (splitSegs s.data).all (fun seg => !seg.isEmpty)

/-- Python falsiness of an environment lookup (`not os.environ.get(name)`):
the variable is absent or empty. -/
def pyFalsy : Option String → Bool
  | none => true
  | some s => s == ""

/-- `init_kaggle` (server.py lines 14–28): reads `KAGGLE_USERNAME` and
`KAGGLE_API_KEY` from `env`, raises (models as `.error`) when either is
missing or empty, otherwise writes `{"username": u, "key": k}` as JSON to
`~/.kaggle/kaggle.json` (with `~` expanded to `home`) and chmods it to
0o600.  Returns the outcome together with the resulting filesystem. -/
def init_kaggle (env : String → Option String) (home : String) (fs : FS) :
    Except String Unit × FS :=
  let username := env "KAGGLE_USERNAME"
  let key := env "KAGGLE_API_KEY"
  if pyFalsy username || pyFalsy key then
    (Except.error "Missing KAGGLE_USERNAME or KAGGLE_KEY environment variables", fs)
  else
    let creds : Val :=
      Val.dict [("username", Val.str (username.getD "")), ("key", Val.str (key.getD ""))]
    let kaggleDir := home ++ "/.kaggle"
    let kagglePath := joinPath kaggleDir "kaggle.json"
    let fs2 := (fs.makedirs kaggleDir).write kagglePath creds
    (Except.ok (), fs2.chmod kagglePath 0o600)

/-- An adapter's result: the returned envelope and whether the delegate
client was invoked. -/
structure AdapterOut where
  resp : Dict
  called : Bool

/-- An adapter's result when the adapter also touches the filesystem. -/
structure AdapterOutFS where
  resp : Dict
  called : Bool
  fs : FS

/-- `competitions_list` (lines 37–66): the delegate returns a list of
competition objects, abstracted here by their `ref` strings (the adapter
reads nothing else from them). -/
def competitions_list (dres : Except String (List String)) : AdapterOut :=
  match dres with
  | Except.ok comps =>
    { resp := [("status", Val.str "success"),
               ("message", Val.str ("Retrieved " ++ toString comps.length ++ " competitions.")),
               ("competitions", Val.list (comps.map Val.str))],
      called := true }
  | Except.error e =>
    { resp := [("status", Val.str "error"), ("message", Val.str e)], called := true }

/-- `competition_list_files` (lines 70–103): the delegate's response object
is abstracted by its `files` list; an exception surfaces `str(e)`
verbatim. -/
def competition_list_files (competition : String)
    (dres : Except String (List Val)) : AdapterOut :=
  match dres with
  | Except.ok files =>
    { resp := [("status", Val.str "success"),
               ("message", Val.str ("Retrieved " ++ toString files.length
                 ++ " files for '" ++ competition ++ "'.")),
               ("files", Val.list files)],
      called := true }
  | Except.error e =>
    { resp := [("status", Val.str "error"), ("message", Val.str e)], called := true }

/-- `dataset_metadata` (lines 486–513): no validation; the message reports
`path or os.getcwd()`; an exception surfaces `str(e)` verbatim. -/
def dataset_metadata (dataset : String) (path : Option String) (cwd : String)
    (dres : Except String Unit) : AdapterOut :=
  match dres with
  | Except.ok _ =>
    { resp := [("status", Val.str "success"),
               ("message", Val.str ("Downloaded metadata for dataset: " ++ dataset
                 ++ " to path: " ++ pyOrStr path cwd))],
      called := true }
  | Except.error e =>
    { resp := [("status", Val.str "error"), ("message", Val.str e)], called := true }

/-- `competition_submit` (lines 207–252): the delegate's response is coerced
to a mapping and its `message` and `ref` fields are read with `.get`
(absent fields yield `None`). -/
def competition_submit (file_name message competition : String)
    (dres : Except String Dict) : AdapterOut :=
  match dres with
  | Except.ok d =>
    { resp := [("status", Val.str "success"),
               ("message", pyGetD d "message" Val.vnone),
               ("competition", Val.str competition),
               ("submission_ref", pyGetD d "ref" Val.vnone)],
      called := true }
  | Except.error e =>
    { resp := [("status", Val.str "error"), ("message", Val.str e)], called := true }

/-- `kernels_list` (lines 894–976): the delegate returns a list of kernel
objects, each coerced to a mapping. -/
def kernels_list (dres : Except String (List Dict)) : AdapterOut :=
  match dres with
  | Except.ok ks =>
    { resp := [("status", Val.str "success"),
               ("message", Val.str ("Retrieved " ++ toString ks.length ++ " kernels.")),
               ("data", Val.list (ks.map Val.dict))],
      called := true }
  | Except.error e =>
    { resp := [("status", Val.str "error"),
               ("message", Val.str ("Failed to list kernels: " ++ e)),
               ("data", Val.list [])],
      called := true }

/-- `kernel_list_files` (lines 980–1028): validates the identifier against
the regex `^[^/]+/[^/]+$`; the delegate's response object is modelled by its
attribute mapping, whose `files` attribute is the list the message counts
(`getattr(files_response, "files", [])`); the envelope's `data` field is the
raw response object itself. -/
def kernel_list_files (kernel : String) (dres : Except String Dict) : AdapterOut :=
  if kernel == "" || !(matchOwnerSlug kernel) then
    { resp := [("status", Val.str "error"),
               ("message", Val.str ("Invalid kernel format: " ++ kernel)),
               ("data", Val.list [])],
      called := false }
  else
    match dres with
    | Except.ok filesResp =>
      let files := match pyGetD filesResp "files" (Val.list []) with
        | Val.list xs => xs
        | _ => []
      { resp := [("status", Val.str "success"),
                 ("message", Val.str ("Retrieved " ++ toString files.length
                   ++ " files from kernel: " ++ kernel)),
                 ("data", Val.dict filesResp)],
        called := true }
    | Except.error e =>
      { resp := [("status", Val.str "error"),
                 ("message", Val.str ("Failed to list files for kernel " ++ kernel ++ ": " ++ e)),
                 ("data", Val.list [])],
        called := true }

/-- `kernel_push` (lines 1074–1151): validates the folder and the presence of
`kernel-metadata.json`, coerces the delegate's response, treats a truthy
`error` field or any truthy `invalid*` field as failure, and splices the
coerced mapping into every post-delegate envelope (`**response_dict`), so
spliced bindings shadow the literal `status`/`message` ones. -/
def kernel_push (folder : String) (fs : FS) (dres : Except String Dict) : AdapterOut :=
  if badFolder folder fs then
    { resp := [("status", Val.str "error"),
               ("message", Val.str ("Folder path does not exist: " ++ folder))],
      called := false }
  else if !(fs.pathExists (joinPath folder "kernel-metadata.json")) then
    { resp := [("status", Val.str "error"),
               ("message", Val.str ("kernel-metadata.json not found in " ++ folder))],
      called := false }
  else
    match dres with
    | Except.ok d =>
      if (pyGetD d "error" Val.vnone).truthy then
        { resp := [("status", Val.str "error"),
                   ("message", pyGetD d "error" Val.vnone)] ++ d,
          called := true }
      else if hasInvalidField d then
        { resp := [("status", Val.str "error"),
                   ("message", Val.str "Validation errors occurred")] ++ d,
          called := true }
      else
        { resp := [("status", Val.str "success")] ++ d, called := true }
    | Except.error e =>
      { resp := [("status", Val.str "error"),
                 ("message", Val.str ("Failed to push kernel: " ++ e))],
        called := true }

/-- `kernel_pull` (lines 1156–1225): validates the identifier, creates the
target directory when absent, runs the delegate (which returns the pulled
file's name and may write files, so the post-delegate filesystem comes with
the delegate's result), and checks that the pulled file exists before
reporting success. -/
def kernel_pull (kernel path cwd : String) (fs : FS)
    (dres : Except String (String × FS)) : AdapterOutFS :=
  if missingSlash kernel then
    { resp := [("status", Val.str "error"),
               ("message", Val.str "Kernel must be specified in the form 'username/kernel-slug'."),
               ("kernel", Val.str kernel)],
      called := false, fs := fs }
  else
    let fs0 := if fs.isdir path then fs else fs.makedirs path
    match dres with
    | Except.ok (pulledFile, fsd) =>
      let absPath := abspath cwd (joinPath path pulledFile)
      if !(fsd.pathExists absPath) then
        { resp := [("status", Val.str "error"),
                   ("message", Val.str ("Kernel pulled but expected file not found at "
                     ++ absPath ++ ".")),
                   ("kernel", Val.str kernel)],
          called := true, fs := fsd }
      else
        { resp := [("status", Val.str "success"),
                   ("message", Val.str ("Kernel '" ++ kernel ++ "' downloaded successfully.")),
                   ("kernel", Val.str kernel),
                   ("saved_path", Val.str absPath)],
          called := true, fs := fsd }
    | Except.error e =>
      { resp := [("status", Val.str "error"),
                 ("message", Val.str ("Unexpected error while downloading kernel '"
                   ++ kernel ++ "': " ++ e)),
                 ("kernel", Val.str kernel)],
        called := true, fs := fs0 }

/-- `dataset_download_files` (lines 651–705): no validation; the delegate is
invoked directly (see `delegateDispatch`) and the message reports
`path or os.getcwd()`. -/
def dataset_download_files (dataset : String) (path : Option String) (cwd : String)
    (dres : Except String Unit) : AdapterOut :=
  match dres with
  | Except.ok _ =>
    { resp := [("status", Val.str "success"),
               ("message", Val.str ("Downloaded dataset: " ++ dataset ++ " to path: "
                 ++ pyOrStr path cwd))],
      called := true }
  | Except.error e =>
    { resp := [("status", Val.str "error"), ("message", Val.str e)], called := true }

/-- `dataset_create` (lines 708–778): validates the folder, coerces the
delegate's response, and treats `response_dict.get("error", "") != ""` as a
soft failure; on success a `message` binding is added to the payload before
it is attached under `data`. -/
def dataset_create (folder : String) (fs : FS) (dres : Except String Dict) : AdapterOut :=
  if badFolder folder fs then
    { resp := [("status", Val.str "error"),
               ("message", Val.str ("Folder does not exist: " ++ folder))],
      called := false }
  else
    match dres with
    | Except.ok d =>
      if (pyGetD d "error" (Val.str "")).eqEmptyStr then
        let msg := "Dataset created successfully from folder: " ++ folder
        { resp := [("status", Val.str "success"),
                   ("message", Val.str msg),
                   ("data", Val.dict (pySet d "message" (Val.str msg)))],
          called := true }
      else
        { resp := [("status", Val.str "error"),
                   ("message", pyGetD d "error" (Val.str "Unknown error occurred.")),
                   ("data", Val.dict d)],
          called := true }
    | Except.error e =>
      { resp := [("status", Val.str "error"), ("message", Val.str e)], called := true }

/-- `dataset_initialize` (lines 782–809; suffixed here to keep the Lean name
legal): validates the folder, then
delegates. -/
def dataset_initialize_adapter (folder : String) (fs : FS) (dres : Except String Unit) : AdapterOut :=
  if badFolder folder fs then
    { resp := [("status", Val.str "error"),
               ("message", Val.str ("Folder does not exist: " ++ folder))],
      called := false }
  else
    match dres with
    | Except.ok _ =>
      { resp := [("status", Val.str "success"),
                 ("message", Val.str ("Initialized dataset in folder: " ++ folder))],
        called := true }
    | Except.error e =>
      { resp := [("status", Val.str "error"), ("message", Val.str e)], called := true }

/-- `model_initialize` (lines 1500–1540; suffixed here to keep the Lean name
legal): performs no folder validation; it
creates the folder with `os.makedirs(folder, exist_ok=True)` and then
delegates. -/
def model_initialize_adapter (folder : String) (fs : FS) (dres : Except String Unit) : AdapterOutFS :=
  let fs0 := fs.makedirs folder
  match dres with
  | Except.ok _ =>
    { resp := [("status", Val.str "success"),
               ("message", Val.str ("Initialized model metadata in folder: " ++ folder)),
               ("data", Val.dict [])],
      called := true, fs := fs0 }
  | Except.error e =>
    { resp := [("status", Val.str "error"),
               ("message", Val.str ("Failed to initialize model metadata: " ++ e)),
               ("data", Val.dict [])],
      called := true, fs := fs0 }

/-- `model_get` (lines 1422–1496): validates the identifier, defaults the
target directory to the working directory (only when the argument is
`None`), creates it, and on success writes the coerced response as JSON to
`model-metadata.json` inside it, overwriting any existing file there. -/
def model_get (model : String) (path : Option String) (cwd : String) (fs : FS)
    (dres : Except String Dict) : AdapterOutFS :=
  if missingSlash model then
    { resp := [("status", Val.str "error"),
               ("message", Val.str "Model must be specified in the form 'owner/model-slug'."),
               ("model", Val.str model),
               ("data", Val.dict []),
               ("file_path", Val.str "")],
      called := false, fs := fs }
  else
    let p := pathOrCwd path cwd
    let fs0 := fs.makedirs p
    match dres with
    | Except.ok d =>
      let filePath := joinPath p "model-metadata.json"
      let fs1 := fs0.write filePath (Val.dict d)
      { resp := [("status", Val.str "success"),
                 ("message", Val.str ("Model '" ++ model
                   ++ "' metadata retrieved and saved successfully.")),
                 ("model", Val.str model),
                 ("data", Val.dict d),
                 ("file_path", Val.str (abspath cwd filePath))],
        called := true, fs := fs1 }
    | Except.error e =>
      { resp := [("status", Val.str "error"),
                 ("message", Val.str ("Failed to retrieve model '" ++ model ++ "': " ++ e)),
                 ("model", Val.str model),
                 ("data", Val.dict []),
                 ("file_path", Val.str "")],
        called := true, fs := fs0 }

/-- `model_delete` (lines 1642–1689): validates the identifier, requires the
confirmation flag, coerces the delegate's response and treats a truthy
`error` field as failure, attaching the payload under `data`. -/
def model_delete (model : String) (confirmation : Bool)
    (dres : Except String Dict) : AdapterOut :=
  if missingSlash model then
    { resp := [("status", Val.str "error"),
               ("message", Val.str "Model must be specified as 'owner/model-name'."),
               ("model", Val.str model),
               ("data", Val.dict [])],
      called := false }
  else if !confirmation then
    { resp := [("status", Val.str "error"),
               ("message", Val.str "Deletion not confirmed. Set confirmation=True to delete."),
               ("model", Val.str model),
               ("data", Val.dict [])],
      called := false }
  else
    match dres with
    | Except.ok d =>
      if (pyGetD d "error" Val.vnone).truthy then
        { resp := [("status", Val.str "error"),
                   ("message", pyGetD d "error" Val.vnone),
                   ("model", Val.str model),
                   ("data", Val.dict d)],
          called := true }
      else
        { resp := [("status", Val.str "success"),
                   ("message", Val.str ("Model '" ++ model ++ "' deleted successfully.")),
                   ("model", Val.str model),
                   ("data", Val.dict d)],
          called := true }
    | Except.error e =>
      { resp := [("status", Val.str "error"),
                 ("message", Val.str ("Failed to delete model '" ++ model ++ "': " ++ e)),
                 ("model", Val.str model),
                 ("data", Val.dict [])],
        called := true }

/-- `model_instance_get` (lines 1693–1761): like `model_get`, writing
`model-instance-metadata.json`; the identifier check is only
`'/' not in model_instance`, not a four-segment check. -/
def model_instance_get (model_instance : String) (path : Option String) (cwd : String)
    (fs : FS) (dres : Except String Dict) : AdapterOutFS :=
  if missingSlash model_instance then
    { resp := [("status", Val.str "error"),
               ("message", Val.str
                 "Model instance must be specified in the form 'owner/model/framework/instance-slug'."),
               ("model_instance", Val.str model_instance),
               ("data", Val.dict []),
               ("file_path", Val.str "")],
      called := false, fs := fs }
  else
    let p := pathOrCwd path cwd
    let fs0 := fs.makedirs p
    match dres with
    | Except.ok d =>
      let filePath := joinPath p "model-instance-metadata.json"
      let fs1 := fs0.write filePath (Val.dict d)
      { resp := [("status", Val.str "success"),
                 ("message", Val.str ("Model instance '" ++ model_instance
                   ++ "' retrieved and saved successfully.")),
                 ("model_instance", Val.str model_instance),
                 ("data", Val.dict d),
                 ("file_path", Val.str (abspath cwd filePath))],
        called := true, fs := fs1 }
    | Except.error e =>
      { resp := [("status", Val.str "error"),
                 ("message", Val.str ("Failed to retrieve model instance '"
                   ++ model_instance ++ "': " ++ e)),
                 ("model_instance", Val.str model_instance),
                 ("data", Val.dict []),
                 ("file_path", Val.str "")],
        called := true, fs := fs0 }

/-- `model_instance_delete` (lines 1915–1979): identifier check, confirmation
check, then delegate with the `error`-field scan. -/
def model_instance_delete (model_instance : String) (confirmation : Bool)
    (dres : Except String Dict) : AdapterOut :=
  if missingSlash model_instance then
    { resp := [("status", Val.str "error"),
               ("message", Val.str
                 "Model instance must be specified as 'owner/model/framework/instance-slug'."),
               ("model_instance", Val.str model_instance),
               ("data", Val.dict [])],
      called := false }
  else if !confirmation then
    { resp := [("status", Val.str "error"),
               ("message", Val.str "Deletion not confirmed. Set confirmation=True to delete."),
               ("model_instance", Val.str model_instance),
               ("data", Val.dict [])],
      called := false }
  else
    match dres with
    | Except.ok d =>
      if (pyGetD d "error" Val.vnone).truthy then
        { resp := [("status", Val.str "error"),
                   ("message", pyGetD d "error" Val.vnone),
                   ("model_instance", Val.str model_instance),
                   ("data", Val.dict d)],
          called := true }
      else
        { resp := [("status", Val.str "success"),
                   ("message", Val.str ("Model instance '" ++ model_instance
                     ++ "' deleted successfully.")),
                   ("model_instance", Val.str model_instance),
                   ("data", Val.dict d)],
          called := true }
    | Except.error e =>
      { resp := [("status", Val.str "error"),
                 ("message", Val.str ("Failed to delete model instance '"
                   ++ model_instance ++ "': " ++ e)),
                 ("model_instance", Val.str model_instance),
                 ("data", Val.dict [])],
        called := true }

/-- `model_instance_version_download` (lines 2062–2134): identifier check
(`'/' not in ...` only), target directory defaulted when `None` and created
with `makedirs`, then delegate. -/
def model_instance_version_download (model_instance_version : String)
    (path : Option String) (cwd : String) (fs : FS)
    (dres : Except String Unit) : AdapterOutFS :=
  if missingSlash model_instance_version then
    { resp := [("status", Val.str "error"),
               ("message", Val.str
                 "Model instance version must be specified as 'owner/model/framework/instance-slug/version-number'."),
               ("model_instance_version", Val.str model_instance_version),
               ("saved_path", Val.str "")],
      called := false, fs := fs }
  else
    let p := pathOrCwd path cwd
    let fs0 := fs.makedirs p
    match dres with
    | Except.ok _ =>
      { resp := [("status", Val.str "success"),
                 ("message", Val.str ("Downloaded model instance version '"
                   ++ model_instance_version ++ "' successfully.")),
                 ("model_instance_version", Val.str model_instance_version),
                 ("saved_path", Val.str (abspath cwd p))],
        called := true, fs := fs0 }
    | Except.error e =>
      { resp := [("status", Val.str "error"),
                 ("message", Val.str ("Failed to download model instance version '"
                   ++ model_instance_version ++ "': " ++ e)),
                 ("model_instance_version", Val.str model_instance_version),
                 ("saved_path", Val.str "")],
        called := true, fs := fs0 }

/-- `model_instance_version_delete` (lines 2211–2285): identifier check,
confirmation check, then delegate with the `error`-field scan. -/
def model_instance_version_delete (model_instance_version : String) (confirmation : Bool)
    (dres : Except String Dict) : AdapterOut :=
  if missingSlash model_instance_version then
    { resp := [("status", Val.str "error"),
               ("message", Val.str
                 "Model instance version must be specified as 'owner/model/framework/instance-slug/version-number'."),
               ("model_instance_version", Val.str model_instance_version),
               ("data", Val.dict [])],
      called := false }
  else if !confirmation then
    { resp := [("status", Val.str "error"),
               ("message", Val.str "Deletion not confirmed. Set confirmation=True to delete."),
               ("model_instance_version", Val.str model_instance_version),
               ("data", Val.dict [])],
      called := false }
  else
    match dres with
    | Except.ok d =>
      if (pyGetD d "error" Val.vnone).truthy then
        { resp := [("status", Val.str "error"),
                   ("message", pyGetD d "error" Val.vnone),
                   ("model_instance_version", Val.str model_instance_version),
                   ("data", Val.dict d)],
          called := true }
      else
        { resp := [("status", Val.str "success"),
                   ("message", Val.str ("Model instance version '" ++ model_instance_version
                     ++ "' deleted successfully.")),
                   ("model_instance_version", Val.str model_instance_version),
                   ("data", Val.dict d)],
          called := true }
    | Except.error e =>
      { resp := [("status", Val.str "error"),
                 ("message", Val.str ("Failed to delete model instance version '"
                   ++ model_instance_version ++ "': " ++ e)),
                 ("model_instance_version", Val.str model_instance_version),
                 ("data", Val.dict [])],
        called := true }

/-- How a tool's body invokes the wrapped API client. -/
inductive DispatchMode where
  /-- `await loop.run_in_executor(None, lambda: api....)` inside an
  `async def` body: the delegate call runs on an executor worker thread. -/
  | executor : DispatchMode
  /-- a direct `api....(...)` call inside an `async def` body: the delegate
  call runs on the event loop itself. -/
  | directCall : DispatchMode
  /-- the tool is a plain `def` (no `async`), calling `api....` directly;
  the host runtime decides on which thread the whole body runs. -/
  | syncDef : DispatchMode
deriving DecidableEq

/-- For every tool registered in server.py, how its body dispatches the
delegate call, transcribed tool by tool from the source. -/
def delegateDispatch : String → Option DispatchMode
  | "competitions_list" => some DispatchMode.executor
  | "competition_list_files" => some DispatchMode.executor
  | "competition_download_file" => some DispatchMode.executor
  | "competition_download_files" => some DispatchMode.executor
  | "competition_submit" => some DispatchMode.executor
  | "competition_submissions" => some DispatchMode.executor
  | "competition_leaderboard_view" => some DispatchMode.executor
  | "competition_leaderboard_download" => some DispatchMode.executor
  | "datasets_list" => some DispatchMode.executor
  | "dataset_metadata" => some DispatchMode.executor
  | "dataset_list_files" => some DispatchMode.executor
  | "dataset_status" => some DispatchMode.executor
  | "dataset_download_file" => some DispatchMode.executor
  | "dataset_download_files" => some DispatchMode.directCall
  | "dataset_create" => some DispatchMode.syncDef
  | "dataset_initialize" => some DispatchMode.syncDef
  | "dataset_create_version" => some DispatchMode.directCall
  | "kernels_list" => some DispatchMode.executor
  | "kernel_list_files" => some DispatchMode.executor
  | "kernel_initialize" => some DispatchMode.executor
  | "kernel_push" => some DispatchMode.executor
  | "kernel_pull" => some DispatchMode.executor
  | "kernel_output" => some DispatchMode.executor
  | "kernel_status" => some DispatchMode.executor
  | "models_list" => some DispatchMode.executor
  | "model_get" => some DispatchMode.executor
  | "model_initialize" => some DispatchMode.executor
  | "model_create" => some DispatchMode.executor
  | "model_update" => some DispatchMode.executor
  | "model_delete" => some DispatchMode.executor
  | "model_instance_get" => some DispatchMode.executor
  | "model_instance_initialize" => some DispatchMode.executor
  | "model_instance_create" => some DispatchMode.executor
  | "model_instance_update" => some DispatchMode.executor
  | "model_instance_delete" => some DispatchMode.executor
  | "model_instance_version_create" => some DispatchMode.executor
  | "model_instance_version_download" => some DispatchMode.executor
  | "model_instance_version_files" => some DispatchMode.executor
  | "model_instance_version_delete" => some DispatchMode.executor
  | _ => none

/-- The envelope contract of §3: a `status` key equal to `"success"` or
`"error"`, and a `message` key. -/
def envelopeOK (d : Dict) : Prop :=
  (pyGet d "status" = some (Val.str "success") ∨ pyGet d "status" = some (Val.str "error"))
  ∧ (pyGet d "message").isSome

/-- The envelope reports success. -/
def statusSuccess (d : Dict) : Prop := pyGet d "status" = some (Val.str "success")

/-- The envelope reports an error. -/
def statusError (d : Dict) : Prop := pyGet d "status" = some (Val.str "error")

/-- The envelope's `message` is a non-empty string. -/
def nonEmptyMsg (d : Dict) : Prop :=
  ∃ m : String, pyGet d "message" = some (Val.str m) ∧ m ≠ ""

/-- The empty filesystem. -/
def fsEmpty : FS := { dirs := [], files := [] }

/-- A filesystem with one folder `/work` that contains
`kernel-metadata.json`. -/
def fsKernelFolder : FS :=
  { dirs := ["/work"],
    files := [{ path := "/work/kernel-metadata.json", content := Val.dict [], mode := 0o644 }] }

/-- An environment with both Kaggle credential variables set and non-empty. -/
def envBoth : String → Option String := fun name =>
  if name == "KAGGLE_USERNAME" then some "alice"
  else if name == "KAGGLE_API_KEY" then some "secret" else none

/-- A coerced delegate payload that carries a non-empty `error` field next to
ordinary fields. -/
def payloadWithError : Dict :=
  [("error", Val.str "quota exceeded"), ("message", Val.str "ok"), ("ref", Val.str "r1")]

theorem append_ne_empty (a b : String) (h : a ≠ "") : a ++ b ≠ "" := by
  intro hc
  have hd := congrArg String.data hc
  simp only [String.data_append] at hd
  rcases List.append_eq_nil.mp hd with ⟨ha, -⟩
  exact h (String.ext ha)

theorem pyGet_append_some (a b : Dict) (k : String) (v : Val)
    (h : pyGet b k = some v) : pyGet (a ++ b) k = some v := by
  induction a with
  | nil => simpa using h
  | cons hd tl ih =>
    obtain ⟨k1, v1⟩ := hd
    simp only [List.cons_append, pyGet, List.append_eq, ih]

theorem pyGet_append_none (a b : Dict) (k : String)
    (h : pyGet b k = none) : pyGet (a ++ b) k = pyGet a k := by
  induction a with
  | nil => simpa using h
  | cons hd tl ih =>
    obtain ⟨k1, v1⟩ := hd
    simp only [List.cons_append, pyGet, List.append_eq, ih]

/-- C8: credential bootstrap round-trip.  If `KAGGLE_USERNAME` and
`KAGGLE_API_KEY` are both set and non-empty, `init_kaggle` succeeds and the
file at the fixed per-user path `~/.kaggle/kaggle.json` holds exactly
`{"username": u, "key": k}` with permission bits 0o600; if either variable
is missing or empty it fails with the fatal configuration error and leaves
the filesystem untouched. -/
theorem C8_init_kaggle_roundtrip :
    (∀ (env : String → Option String) (home : String) (fs : FS) (u k : String),
      env "KAGGLE_USERNAME" = some u → env "KAGGLE_API_KEY" = some k →
      u ≠ "" → k ≠ "" →
      (init_kaggle env home fs).1 = Except.ok () ∧
      (init_kaggle env home fs).2.getFile (joinPath (home ++ "/.kaggle") "kaggle.json")
        = some { path := joinPath (home ++ "/.kaggle") "kaggle.json",
                 content := Val.dict [("username", Val.str u), ("key", Val.str k)],
                 mode := 0o600 }) ∧
    (∀ (env : String → Option String) (home : String) (fs : FS),
      (pyFalsy (env "KAGGLE_USERNAME") || pyFalsy (env "KAGGLE_API_KEY")) = true →
      init_kaggle env home fs
        = (Except.error "Missing KAGGLE_USERNAME or KAGGLE_KEY environment variables", fs)) := by
  constructor
  · intro env home fs u k hu hk hune hkne
    have hu' : (u == "") = false := beq_eq_false_iff_ne.mpr hune
    have hk' : (k == "") = false := beq_eq_false_iff_ne.mpr hkne
    simp [init_kaggle, pyFalsy, hu, hk, hu', hk', FS.write, FS.chmod, FS.getFile,
      FS.makedirs, joinPath, List.find?]
  · intro env home fs h
    simp [init_kaggle, h]

/-- C8 witness: the round-trip evaluated on a concrete environment. -/
theorem C8_witness :
    (init_kaggle envBoth "/home/alice" fsEmpty).1 = Except.ok () ∧
    (init_kaggle envBoth "/home/alice" fsEmpty).2.getFile
        (joinPath ("/home/alice" ++ "/.kaggle") "kaggle.json")
      = some { path := joinPath ("/home/alice" ++ "/.kaggle") "kaggle.json",
               content := Val.dict [("username", Val.str "alice"), ("key", Val.str "secret")],
               mode := 0o600 } :=
  C8_init_kaggle_roundtrip.1 envBoth "/home/alice" fsEmpty "alice" "secret" rfl rfl
    (by decide) (by decide)

/-- C9: how each tool really dispatches its delegate call.  The claim says
every adapter hands the delegate to an executor worker thread; in the source
the `async` adapters `dataset_download_files` and `dataset_create_version`
invoke the client directly on the event loop (no `run_in_executor`), and
`dataset_create` / `dataset_initialize_adapter` are plain synchronous functions,
while for instance `competitions_list` and `kernel_push` do use the
executor. -/
theorem C9_dispatch_modes :
    delegateDispatch "dataset_download_files" = some DispatchMode.directCall
    ∧ delegateDispatch "dataset_create_version" = some DispatchMode.directCall
    ∧ delegateDispatch "dataset_create" = some DispatchMode.syncDef
    ∧ delegateDispatch "dataset_initialize" = some DispatchMode.syncDef
    ∧ delegateDispatch "competitions_list" = some DispatchMode.executor
    ∧ delegateDispatch "kernel_push" = some DispatchMode.executor :=
  ⟨rfl, rfl, rfl, rfl, rfl, rfl⟩

/-- C10: `model_get` and `model_instance_get`, on any delegate success,
write the coerced response into `model-metadata.json` (respectively
`model-instance-metadata.json`) inside the target directory — the directory
is created by `makedirs` when absent, and because the theorem quantifies
over every starting filesystem `fs`, it covers in particular a filesystem
that already holds a file of that name, whose content is replaced. -/
theorem C10_get_writes_metadata_file :
    (∀ (model : String) (path : Option String) (cwd : String) (fs : FS) (d : Dict),
      missingSlash model = false →
      statusSuccess (model_get model path cwd fs (Except.ok d)).resp
      ∧ (model_get model path cwd fs (Except.ok d)).called = true
      ∧ (model_get model path cwd fs (Except.ok d)).fs.isdir (pathOrCwd path cwd) = true
      ∧ (model_get model path cwd fs (Except.ok d)).fs.getFile
            (joinPath (pathOrCwd path cwd) "model-metadata.json")
          = some { path := joinPath (pathOrCwd path cwd) "model-metadata.json",
                   content := Val.dict d, mode := 0o644 }) ∧
    (∀ (mi : String) (path : Option String) (cwd : String) (fs : FS) (d : Dict),
      missingSlash mi = false →
      statusSuccess (model_instance_get mi path cwd fs (Except.ok d)).resp
      ∧ (model_instance_get mi path cwd fs (Except.ok d)).called = true
      ∧ (model_instance_get mi path cwd fs (Except.ok d)).fs.isdir (pathOrCwd path cwd) = true
      ∧ (model_instance_get mi path cwd fs (Except.ok d)).fs.getFile
            (joinPath (pathOrCwd path cwd) "model-instance-metadata.json")
          = some { path := joinPath (pathOrCwd path cwd) "model-instance-metadata.json",
                   content := Val.dict d, mode := 0o644 }) := by
  constructor
  · intro model path cwd fs d h
    refine ⟨?_, ?_, ?_, ?_⟩ <;>
      simp [model_get, h, statusSuccess, pyGet, FS.write, FS.getFile, FS.makedirs,
        FS.isdir, List.find?] <;>
      split <;> simp_all [List.contains_eq_any_beq]
  · intro mi path cwd fs d h
    refine ⟨?_, ?_, ?_, ?_⟩ <;>
      simp [model_instance_get, h, statusSuccess, pyGet, FS.write, FS.getFile, FS.makedirs,
        FS.isdir, List.find?] <;>
      split <;> simp_all [List.contains_eq_any_beq]

/-- C10 witness: `model_get` evaluated on the empty filesystem with a
concrete payload: the target directory is created and the metadata file
written. -/
theorem C10_witness :
    statusSuccess (model_get "o/m" (some "/tmp/out") "/cwd" fsEmpty
        (Except.ok [("ref", Val.str "o/m")])).resp
    ∧ (model_get "o/m" (some "/tmp/out") "/cwd" fsEmpty
        (Except.ok [("ref", Val.str "o/m")])).called = true
    ∧ (model_get "o/m" (some "/tmp/out") "/cwd" fsEmpty
        (Except.ok [("ref", Val.str "o/m")])).fs.isdir
        (pathOrCwd (some "/tmp/out") "/cwd") = true
    ∧ (model_get "o/m" (some "/tmp/out") "/cwd" fsEmpty
        (Except.ok [("ref", Val.str "o/m")])).fs.getFile
          (joinPath (pathOrCwd (some "/tmp/out") "/cwd") "model-metadata.json")
        = some { path := joinPath (pathOrCwd (some "/tmp/out") "/cwd") "model-metadata.json",
                 content := Val.dict [("ref", Val.str "o/m")], mode := 0o644 } :=
  C10_get_writes_metadata_file.1 "o/m" (some "/tmp/out") "/cwd" fsEmpty
    [("ref", Val.str "o/m")] (by decide)

/-- C1 counterexample: `kernel_push` on a valid folder whose delegate
returns an object with an empty attribute mapping produces the envelope
`{"status": "success"}` — a mapping with no `message` key at all, refuting
the claim that every adapter call returns an envelope containing a
`message` key. -/
theorem C1_counterexample :
    (kernel_push "/work" fsKernelFolder (Except.ok [])).resp = [("status", Val.str "success")]
    ∧ pyGet (kernel_push "/work" fsKernelFolder (Except.ok [])).resp "message" = none :=
  ⟨rfl, rfl⟩

/-- C2 counterexample: `competition_submit` with a delegate that returns
normally but whose coerced mapping has no `message` field yields a success
envelope whose `message` is `None` — not a non-empty message, refuting the
claim as stated. -/
theorem C2_counterexample :
    statusSuccess (competition_submit "sub.csv" "note" "comp" (Except.ok [])).resp
    ∧ pyGet (competition_submit "sub.csv" "note" "comp" (Except.ok [])).resp "message"
        = some Val.vnone
    ∧ ¬ nonEmptyMsg (competition_submit "sub.csv" "note" "comp" (Except.ok [])).resp := by
  refine ⟨rfl, rfl, ?_⟩
  rintro ⟨m, hm, -⟩
  rw [show pyGet (competition_submit "sub.csv" "note" "comp" (Except.ok [])).resp "message"
      = some Val.vnone from rfl] at hm
  cases Option.some.inj hm

/-- C3 counterexample: when the delegate of `kernels_list` raises an
exception described by `"boom"`, the envelope's message is the prefixed
string `"Failed to list kernels: boom"`, not the exception's description
itself, refuting the claim that the message is (equal to) the exception's
description. -/
theorem C3_counterexample :
    pyGet (kernels_list (Except.error "boom")).resp "message"
        = some (Val.str "Failed to list kernels: boom")
    ∧ "Failed to list kernels: boom" ≠ "boom" :=
  ⟨rfl, by decide⟩

/-- C5 counterexample: `model_instance_get` takes a four-segment
`owner/name/framework/slug` identifier, yet the two-segment identifier
`"a/b"` passes its validation: the delegate is invoked and the call
succeeds, refuting the claim that validation rejects every identifier
without the expected number of segments. -/
theorem C5_counterexample :
    (splitSegs "a/b".data).length = 2
    ∧ (model_instance_get "a/b" none "/cwd" fsEmpty (Except.ok [])).called = true
    ∧ statusSuccess (model_instance_get "a/b" none "/cwd" fsEmpty (Except.ok [])).resp :=
  ⟨rfl, rfl, rfl⟩

/-- C6 counterexample: `competition_submit` coerces the delegate's return
value to a mapping but never scans it for an `error` field: on a payload
whose `error` field is present and non-empty it still returns a success
envelope, refuting the claim as stated for "every adapter that coerces". -/
theorem C6_counterexample :
    (pyGetD payloadWithError "error" Val.vnone).truthy = true
    ∧ statusSuccess
        (competition_submit "sub.csv" "note" "comp" (Except.ok payloadWithError)).resp :=
  ⟨rfl, rfl⟩

/-- C7 counterexample: `model_initialize_adapter` is an adapter that writes into a
caller-supplied folder, yet on a folder that does not exist it does not
return an error envelope: it creates the folder, invokes the delegate and
reports success, refuting the claim for this adapter. -/
theorem C7_counterexample :
    fsEmpty.isdir "newdir" = false
    ∧ (model_initialize_adapter "newdir" fsEmpty (Except.ok ())).called = true
    ∧ (model_initialize_adapter "newdir" fsEmpty (Except.ok ())).fs.isdir "newdir" = true
    ∧ statusSuccess (model_initialize_adapter "newdir" fsEmpty (Except.ok ())).resp :=
  ⟨rfl, rfl, rfl, rfl⟩

/-- C4: whenever an adapter's local validation rejects the input — empty or
malformed identifier, missing folder, missing required metadata file, or a
delete confirmation flag that is not true — the adapter returns an error
envelope, never invokes the delegate, and leaves the filesystem untouched;
in particular every delete-style adapter short-circuits on
`confirmation=false` for every identifier, well-formed or not. -/
theorem C4_validation_short_circuits :
    (∀ (folder : String) (fs : FS) (dres : Except String Dict),
      badFolder folder fs = true →
      statusError (kernel_push folder fs dres).resp
      ∧ (kernel_push folder fs dres).called = false) ∧
    (∀ (folder : String) (fs : FS) (dres : Except String Dict),
      badFolder folder fs = false →
      fs.pathExists (joinPath folder "kernel-metadata.json") = false →
      statusError (kernel_push folder fs dres).resp
      ∧ (kernel_push folder fs dres).called = false) ∧
    (∀ (kernel : String) (dres : Except String Dict),
      (kernel == "" || !(matchOwnerSlug kernel)) = true →
      statusError (kernel_list_files kernel dres).resp
      ∧ (kernel_list_files kernel dres).called = false) ∧
    (∀ (folder : String) (fs : FS) (dres : Except String Dict),
      badFolder folder fs = true →
      statusError (dataset_create folder fs dres).resp
      ∧ (dataset_create folder fs dres).called = false) ∧
    (∀ (folder : String) (fs : FS) (dres : Except String Unit),
      badFolder folder fs = true →
      statusError (dataset_initialize_adapter folder fs dres).resp
      ∧ (dataset_initialize_adapter folder fs dres).called = false) ∧
    (∀ (kernel path cwd : String) (fs : FS) (dres : Except String (String × FS)),
      missingSlash kernel = true →
      statusError (kernel_pull kernel path cwd fs dres).resp
      ∧ (kernel_pull kernel path cwd fs dres).called = false
      ∧ (kernel_pull kernel path cwd fs dres).fs = fs) ∧
    (∀ (model : String) (path : Option String) (cwd : String) (fs : FS)
        (dres : Except String Dict),
      missingSlash model = true →
      statusError (model_get model path cwd fs dres).resp
      ∧ (model_get model path cwd fs dres).called = false
      ∧ (model_get model path cwd fs dres).fs = fs) ∧
    (∀ (mi : String) (path : Option String) (cwd : String) (fs : FS)
        (dres : Except String Dict),
      missingSlash mi = true →
      statusError (model_instance_get mi path cwd fs dres).resp
      ∧ (model_instance_get mi path cwd fs dres).called = false
      ∧ (model_instance_get mi path cwd fs dres).fs = fs) ∧
    (∀ (miv : String) (path : Option String) (cwd : String) (fs : FS)
        (dres : Except String Unit),
      missingSlash miv = true →
      statusError (model_instance_version_download miv path cwd fs dres).resp
      ∧ (model_instance_version_download miv path cwd fs dres).called = false
      ∧ (model_instance_version_download miv path cwd fs dres).fs = fs) ∧
    (∀ (model : String) (conf : Bool) (dres : Except String Dict),
      missingSlash model = true →
      statusError (model_delete model conf dres).resp
      ∧ (model_delete model conf dres).called = false) ∧
    (∀ (model : String) (dres : Except String Dict),
      statusError (model_delete model false dres).resp
      ∧ (model_delete model false dres).called = false) ∧
    (∀ (mi : String) (dres : Except String Dict),
      statusError (model_instance_delete mi false dres).resp
      ∧ (model_instance_delete mi false dres).called = false) ∧
    (∀ (miv : String) (dres : Except String Dict),
      statusError (model_instance_version_delete miv false dres).resp
      ∧ (model_instance_version_delete miv false dres).called = false) := by
  refine ⟨?_, ?_, ?_, ?_, ?_, ?_, ?_, ?_, ?_, ?_, ?_, ?_, ?_⟩
  · intro folder fs dres h
    simp [kernel_push, h, statusError, pyGet]
  · intro folder fs dres h h2
    simp [kernel_push, h, h2, statusError, pyGet]
  · intro kernel dres h
    simp [kernel_list_files, h, statusError, pyGet]
  · intro folder fs dres h
    simp [dataset_create, h, statusError, pyGet]
  · intro folder fs dres h
    simp [dataset_initialize_adapter, h, statusError, pyGet]
  · intro kernel path cwd fs dres h
    simp [kernel_pull, h, statusError, pyGet]
  · intro model path cwd fs dres h
    simp [model_get, h, statusError, pyGet]
  · intro mi path cwd fs dres h
    simp [model_instance_get, h, statusError, pyGet]
  · intro miv path cwd fs dres h
    simp [model_instance_version_download, h, statusError, pyGet]
  · intro model conf dres h
    simp [model_delete, h, statusError, pyGet]
  · intro model dres
    by_cases h : missingSlash model = true <;> simp [model_delete, h, statusError, pyGet]
  · intro mi dres
    by_cases h : missingSlash mi = true <;>
      simp [model_instance_delete, h, statusError, pyGet]
  · intro miv dres
    by_cases h : missingSlash miv = true <;>
      simp [model_instance_version_delete, h, statusError, pyGet]

/-- C4 witness: a delete adapter with a well-formed five-segment identifier
but `confirmation=false` returns an error envelope without a delegate
call. -/
theorem C4_witness :
    statusError (model_instance_version_delete "o/m/tf/s/1" false
        (Except.ok [("ref", Val.str "x")])).resp
    ∧ (model_instance_version_delete "o/m/tf/s/1" false
        (Except.ok [("ref", Val.str "x")])).called = false :=
  (C4_validation_short_circuits.2.2.2.2.2.2.2.2.2.2.2.2) "o/m/tf/s/1"
    (Except.ok [("ref", Val.str "x")])

/-- C5 amended: identifier validation does not count segments.  Except for
`kernel_list_files`, whose regex enforces exactly two non-empty segments,
the compound-identifier adapters only require a non-empty identifier
containing at least one `/`: any such identifier — whatever its segment
count — passes validation and reaches the delegate, and identifiers without
a `/` (or empty) are rejected with an error envelope and no delegate
call. -/
theorem C5_amended_slash_check_only :
    (∀ s : String, (s == "") = false → s.data.contains '/' = true →
      missingSlash s = false) ∧
    (∀ (mi : String) (path : Option String) (cwd : String) (fs : FS)
        (dres : Except String Dict),
      missingSlash mi = false →
      (model_instance_get mi path cwd fs dres).called = true) ∧
    (∀ (miv : String) (path : Option String) (cwd : String) (fs : FS)
        (dres : Except String Unit),
      missingSlash miv = false →
      (model_instance_version_download miv path cwd fs dres).called = true) ∧
    (∀ (mi : String) (path : Option String) (cwd : String) (fs : FS)
        (dres : Except String Dict),
      missingSlash mi = true →
      statusError (model_instance_get mi path cwd fs dres).resp
      ∧ (model_instance_get mi path cwd fs dres).called = false) ∧
    (∀ (kernel : String) (dres : Except String Dict),
      (kernel == "" || !(matchOwnerSlug kernel)) = true →
      statusError (kernel_list_files kernel dres).resp
      ∧ (kernel_list_files kernel dres).called = false) ∧
    (∀ (kernel : String) (dres : Except String Dict),
      (kernel == "" || !(matchOwnerSlug kernel)) = false →
      (kernel_list_files kernel dres).called = true) := by
  refine ⟨?_, ?_, ?_, ?_, ?_, ?_⟩
  · intro s h1 h2
    simp only [missingSlash, h1, h2, Bool.false_or, Bool.not_true]
  · intro mi path cwd fs dres h
    cases dres <;> simp [model_instance_get, h]
  · intro miv path cwd fs dres h
    cases dres <;> simp [model_instance_version_download, h]
  · intro mi path cwd fs dres h
    simp [model_instance_get, h, statusError, pyGet]
  · intro kernel dres h
    simp [kernel_list_files, h, statusError, pyGet]
  · intro kernel dres h
    cases dres <;> simp [kernel_list_files, h]

/-- C5 witness: the two-segment identifier `"o/m"` reaches the delegate of
`model_instance_version_download`, whose documented identifier shape has
five segments. -/
theorem C5_witness :
    (model_instance_version_download "o/m" none "/cwd" fsEmpty
        (Except.ok ())).called = true :=
  C5_amended_slash_check_only.2.2.1 "o/m" none "/cwd" fsEmpty (Except.ok ()) (by decide)

/-- C7 amended: the adapters that push content from a caller-supplied folder
(here `dataset_create`, `dataset_initialize_adapter`, `kernel_push`) require the
folder to exist and return an error envelope without invoking the delegate
when it does not; but the download- and initialize-style adapters (here
`model_initialize_adapter`, `kernel_pull`, `model_get`, `model_instance_get`,
`model_instance_version_download`) instead create a missing target folder
with `os.makedirs` and proceed to the delegate. -/
theorem C7_amended_folder_handling :
    (∀ (folder : String) (fs : FS) (dres : Except String Dict),
      badFolder folder fs = true →
      statusError (dataset_create folder fs dres).resp
      ∧ (dataset_create folder fs dres).called = false) ∧
    (∀ (folder : String) (fs : FS) (dres : Except String Unit),
      badFolder folder fs = true →
      statusError (dataset_initialize_adapter folder fs dres).resp
      ∧ (dataset_initialize_adapter folder fs dres).called = false) ∧
    (∀ (folder : String) (fs : FS) (dres : Except String Dict),
      badFolder folder fs = true →
      statusError (kernel_push folder fs dres).resp
      ∧ (kernel_push folder fs dres).called = false) ∧
    (∀ (folder : String) (fs : FS) (dres : Except String Unit),
      (model_initialize_adapter folder fs dres).called = true
      ∧ (model_initialize_adapter folder fs dres).fs.isdir folder = true) ∧
    (∀ (kernel path cwd : String) (fs : FS) (dres : Except String (String × FS)),
      missingSlash kernel = false →
      (kernel_pull kernel path cwd fs dres).called = true) ∧
    (∀ (model : String) (path : Option String) (cwd : String) (fs : FS)
        (dres : Except String Dict),
      missingSlash model = false →
      (model_get model path cwd fs dres).called = true
      ∧ (model_get model path cwd fs dres).fs.isdir (pathOrCwd path cwd) = true) ∧
    (∀ (mi : String) (path : Option String) (cwd : String) (fs : FS)
        (dres : Except String Dict),
      missingSlash mi = false →
      (model_instance_get mi path cwd fs dres).called = true) ∧
    (∀ (miv : String) (path : Option String) (cwd : String) (fs : FS)
        (dres : Except String Unit),
      missingSlash miv = false →
      (model_instance_version_download miv path cwd fs dres).called = true
      ∧ (model_instance_version_download miv path cwd fs dres).fs.isdir
          (pathOrCwd path cwd) = true) := by
  refine ⟨?_, ?_, ?_, ?_, ?_, ?_, ?_, ?_⟩
  · intro folder fs dres h
    simp [dataset_create, h, statusError, pyGet]
  · intro folder fs dres h
    simp [dataset_initialize_adapter, h, statusError, pyGet]
  · intro folder fs dres h
    simp [kernel_push, h, statusError, pyGet]
  · intro folder fs dres
    cases dres <;>
      simp [model_initialize_adapter, FS.makedirs, FS.isdir] <;>
      split <;> simp_all [List.contains_eq_any_beq]
  · intro kernel path cwd fs dres h
    match dres with
    | Except.ok (f, fsd) =>
      simp only [kernel_pull, h, Bool.false_eq_true, if_false]
      split <;> rfl
    | Except.error e => simp [kernel_pull, h]
  · intro model path cwd fs dres h
    cases dres <;>
      simp [model_get, h, FS.makedirs, FS.write, FS.isdir] <;>
      split <;> simp_all [List.contains_eq_any_beq]
  · intro mi path cwd fs dres h
    cases dres <;> simp [model_instance_get, h]
  · intro miv path cwd fs dres h
    cases dres <;>
      simp [model_instance_version_download, h, FS.makedirs, FS.isdir] <;>
      split <;> simp_all [List.contains_eq_any_beq]

/-- C7 witness: `kernel_pull` on a target path that does not exist proceeds
to the delegate (and the `model_initialize_adapter` part is exercised by
`C7_amended_folder_handling` at a folder absent from the filesystem). -/
theorem C7_witness :
    (model_get "o/m" (some "/fresh") "/cwd" fsEmpty (Except.ok [])).called = true
    ∧ (model_get "o/m" (some "/fresh") "/cwd" fsEmpty (Except.ok [])).fs.isdir
        (pathOrCwd (some "/fresh") "/cwd") = true :=
  C7_amended_folder_handling.2.2.2.2.2.1 "o/m" (some "/fresh") "/cwd" fsEmpty
    (Except.ok []) (by decide)

/-- C3 amended: for every embedded adapter, an exception raised by the
delegate call (modelled by `Except.error e`, where `e` is the exception's
description `str(e)`) is caught at the adapter boundary and surfaced as an
error envelope — so no exception propagates to the caller — and the
envelope's `message` carries the exception's description.  The
competitions- and datasets-family adapters return `str(e)` verbatim (among
the embedded ones: `competitions_list`, `competition_list_files`,
`competition_submit`, `dataset_metadata`, `dataset_create`,
`dataset_initialize` and `dataset_download_files`); the kernels- and
models-family adapters prefix a fixed adapter-specific context (e.g.
`kernels_list` returns `"Failed to list kernels: " ++ str(e)`). -/
theorem C3_amended_exceptions_caught :
    (∀ e : String,
      statusError (competitions_list (Except.error e)).resp
      ∧ pyGet (competitions_list (Except.error e)).resp "message" = some (Val.str e)) ∧
    (∀ f m c e : String,
      statusError (competition_submit f m c (Except.error e)).resp
      ∧ pyGet (competition_submit f m c (Except.error e)).resp "message" = some (Val.str e)) ∧
    (∀ e : String,
      statusError (kernels_list (Except.error e)).resp
      ∧ pyGet (kernels_list (Except.error e)).resp "message"
          = some (Val.str ("Failed to list kernels: " ++ e))) ∧
    (∀ kernel e : String,
      (kernel == "" || !(matchOwnerSlug kernel)) = false →
      statusError (kernel_list_files kernel (Except.error e)).resp
      ∧ pyGet (kernel_list_files kernel (Except.error e)).resp "message"
          = some (Val.str ("Failed to list files for kernel " ++ kernel ++ ": " ++ e))) ∧
    (∀ (folder : String) (fs : FS) (e : String),
      badFolder folder fs = false →
      fs.pathExists (joinPath folder "kernel-metadata.json") = true →
      statusError (kernel_push folder fs (Except.error e)).resp
      ∧ pyGet (kernel_push folder fs (Except.error e)).resp "message"
          = some (Val.str ("Failed to push kernel: " ++ e))) ∧
    (∀ (kernel path cwd : String) (fs : FS) (e : String),
      missingSlash kernel = false →
      statusError (kernel_pull kernel path cwd fs (Except.error e)).resp
      ∧ pyGet (kernel_pull kernel path cwd fs (Except.error e)).resp "message"
          = some (Val.str ("Unexpected error while downloading kernel '"
              ++ kernel ++ "': " ++ e))) ∧
    (∀ (folder : String) (fs : FS) (e : String),
      badFolder folder fs = false →
      statusError (dataset_create folder fs (Except.error e)).resp
      ∧ pyGet (dataset_create folder fs (Except.error e)).resp "message"
          = some (Val.str e)) ∧
    (∀ (folder : String) (fs : FS) (e : String),
      badFolder folder fs = false →
      statusError (dataset_initialize_adapter folder fs (Except.error e)).resp
      ∧ pyGet (dataset_initialize_adapter folder fs (Except.error e)).resp "message"
          = some (Val.str e)) ∧
    (∀ (ds : String) (path : Option String) (cwd e : String),
      statusError (dataset_download_files ds path cwd (Except.error e)).resp
      ∧ pyGet (dataset_download_files ds path cwd (Except.error e)).resp "message"
          = some (Val.str e)) ∧
    (∀ (folder : String) (fs : FS) (e : String),
      statusError (model_initialize_adapter folder fs (Except.error e)).resp
      ∧ pyGet (model_initialize_adapter folder fs (Except.error e)).resp "message"
          = some (Val.str ("Failed to initialize model metadata: " ++ e))) ∧
    (∀ (model : String) (path : Option String) (cwd : String) (fs : FS) (e : String),
      missingSlash model = false →
      statusError (model_get model path cwd fs (Except.error e)).resp
      ∧ pyGet (model_get model path cwd fs (Except.error e)).resp "message"
          = some (Val.str ("Failed to retrieve model '" ++ model ++ "': " ++ e))) ∧
    (∀ (model e : String),
      missingSlash model = false →
      statusError (model_delete model true (Except.error e)).resp
      ∧ pyGet (model_delete model true (Except.error e)).resp "message"
          = some (Val.str ("Failed to delete model '" ++ model ++ "': " ++ e))) ∧
    (∀ (mi : String) (path : Option String) (cwd : String) (fs : FS) (e : String),
      missingSlash mi = false →
      statusError (model_instance_get mi path cwd fs (Except.error e)).resp
      ∧ pyGet (model_instance_get mi path cwd fs (Except.error e)).resp "message"
          = some (Val.str ("Failed to retrieve model instance '" ++ mi ++ "': " ++ e))) ∧
    (∀ (mi e : String),
      missingSlash mi = false →
      statusError (model_instance_delete mi true (Except.error e)).resp
      ∧ pyGet (model_instance_delete mi true (Except.error e)).resp "message"
          = some (Val.str ("Failed to delete model instance '" ++ mi ++ "': " ++ e))) ∧
    (∀ (miv : String) (path : Option String) (cwd : String) (fs : FS) (e : String),
      missingSlash miv = false →
      statusError (model_instance_version_download miv path cwd fs (Except.error e)).resp
      ∧ pyGet (model_instance_version_download miv path cwd fs (Except.error e)).resp
            "message"
          = some (Val.str ("Failed to download model instance version '"
              ++ miv ++ "': " ++ e))) ∧
    (∀ (miv e : String),
      missingSlash miv = false →
      statusError (model_instance_version_delete miv true (Except.error e)).resp
      ∧ pyGet (model_instance_version_delete miv true (Except.error e)).resp "message"
          = some (Val.str ("Failed to delete model instance version '"
              ++ miv ++ "': " ++ e))) ∧
    (∀ (competition e : String),
      statusError (competition_list_files competition (Except.error e)).resp
      ∧ pyGet (competition_list_files competition (Except.error e)).resp "message"
          = some (Val.str e)) ∧
    (∀ (ds : String) (path : Option String) (cwd e : String),
      statusError (dataset_metadata ds path cwd (Except.error e)).resp
      ∧ pyGet (dataset_metadata ds path cwd (Except.error e)).resp "message"
          = some (Val.str e)) := by
  refine ⟨?_, ?_, ?_, ?_, ?_, ?_, ?_, ?_, ?_, ?_, ?_, ?_, ?_, ?_, ?_, ?_, ?_, ?_⟩
  · intro e
    exact ⟨rfl, rfl⟩
  · intro f m c e
    exact ⟨rfl, rfl⟩
  · intro e
    exact ⟨rfl, rfl⟩
  · intro kernel e h
    simp [kernel_list_files, h, statusError, pyGet]
  · intro folder fs e h h2
    simp [kernel_push, h, h2, statusError, pyGet]
  · intro kernel path cwd fs e h
    simp [kernel_pull, h, statusError, pyGet]
  · intro folder fs e h
    simp [dataset_create, h, statusError, pyGet]
  · intro folder fs e h
    simp [dataset_initialize_adapter, h, statusError, pyGet]
  · intro ds path cwd e
    exact ⟨rfl, rfl⟩
  · intro folder fs e
    exact ⟨rfl, rfl⟩
  · intro model path cwd fs e h
    simp [model_get, h, statusError, pyGet]
  · intro model e h
    simp [model_delete, h, statusError, pyGet]
  · intro mi path cwd fs e h
    simp [model_instance_get, h, statusError, pyGet]
  · intro mi e h
    simp [model_instance_delete, h, statusError, pyGet]
  · intro miv path cwd fs e h
    simp [model_instance_version_download, h, statusError, pyGet]
  · intro miv e h
    simp [model_instance_version_delete, h, statusError, pyGet]
  · intro competition e
    exact ⟨rfl, rfl⟩
  · intro ds path cwd e
    exact ⟨rfl, rfl⟩

/-- C3 witness: `kernel_push` on a valid folder whose delegate raises an
exception described by `"boom"` returns the error envelope with the
prefixed description. -/
theorem C3_witness :
    statusError (kernel_push "/work" fsKernelFolder (Except.error "boom")).resp
    ∧ pyGet (kernel_push "/work" fsKernelFolder (Except.error "boom")).resp "message"
        = some (Val.str ("Failed to push kernel: " ++ "boom")) :=
  C3_amended_exceptions_caught.2.2.2.2.1 "/work" fsKernelFolder "boom"
    (by decide) (by decide)

/-- C6 amended: among the adapters that coerce the delegate's return value
to a mapping, those that scan it for an `error` field — here
`dataset_create`, `model_delete`, `model_instance_delete`,
`model_instance_version_delete` and `kernel_push` — return an error
envelope whose `message` is that field's value and still attach the coerced
fields (under `data`, or spliced directly into the envelope for
`kernel_push`, where a coerced `status`/`message` binding would take
precedence); `competition_submit` coerces but performs no such scan (see
its counterexample). -/
theorem C6_amended_soft_error_scan :
    (∀ (folder : String) (fs : FS) (d : Dict) (m : String),
      badFolder folder fs = false →
      pyGet d "error" = some (Val.str m) → (m == "") = false →
      statusError (dataset_create folder fs (Except.ok d)).resp
      ∧ pyGet (dataset_create folder fs (Except.ok d)).resp "message" = some (Val.str m)
      ∧ pyGet (dataset_create folder fs (Except.ok d)).resp "data" = some (Val.dict d)) ∧
    (∀ (model : String) (d : Dict),
      missingSlash model = false →
      (pyGetD d "error" Val.vnone).truthy = true →
      statusError (model_delete model true (Except.ok d)).resp
      ∧ pyGet (model_delete model true (Except.ok d)).resp "message"
          = some (pyGetD d "error" Val.vnone)
      ∧ pyGet (model_delete model true (Except.ok d)).resp "data" = some (Val.dict d)) ∧
    (∀ (mi : String) (d : Dict),
      missingSlash mi = false →
      (pyGetD d "error" Val.vnone).truthy = true →
      statusError (model_instance_delete mi true (Except.ok d)).resp
      ∧ pyGet (model_instance_delete mi true (Except.ok d)).resp "message"
          = some (pyGetD d "error" Val.vnone)
      ∧ pyGet (model_instance_delete mi true (Except.ok d)).resp "data"
          = some (Val.dict d)) ∧
    (∀ (miv : String) (d : Dict),
      missingSlash miv = false →
      (pyGetD d "error" Val.vnone).truthy = true →
      statusError (model_instance_version_delete miv true (Except.ok d)).resp
      ∧ pyGet (model_instance_version_delete miv true (Except.ok d)).resp "message"
          = some (pyGetD d "error" Val.vnone)
      ∧ pyGet (model_instance_version_delete miv true (Except.ok d)).resp "data"
          = some (Val.dict d)) ∧
    (∀ (folder : String) (fs : FS) (d : Dict),
      badFolder folder fs = false →
      fs.pathExists (joinPath folder "kernel-metadata.json") = true →
      (pyGetD d "error" Val.vnone).truthy = true →
      pyGet d "message" = none → pyGet d "status" = none →
      statusError (kernel_push folder fs (Except.ok d)).resp
      ∧ pyGet (kernel_push folder fs (Except.ok d)).resp "message"
          = some (pyGetD d "error" Val.vnone)
      ∧ (∀ (k : String) (v : Val), pyGet d k = some v →
          pyGet (kernel_push folder fs (Except.ok d)).resp k = some v)) := by
  refine ⟨?_, ?_, ?_, ?_, ?_⟩
  · intro folder fs d m h hm hne
    simp [dataset_create, h, pyGetD, hm, Val.eqEmptyStr, hne, statusError, pyGet]
  · intro model d h herr
    simp [model_delete, h, herr, statusError, pyGet]
  · intro mi d h herr
    simp [model_instance_delete, h, herr, statusError, pyGet]
  · intro miv d h herr
    simp [model_instance_version_delete, h, herr, statusError, pyGet]
  · intro folder fs d h h2 herr hmsg hstat
    have hresp : (kernel_push folder fs (Except.ok d)).resp
        = [("status", Val.str "error"), ("message", pyGetD d "error" Val.vnone)] ++ d := by
      simp [kernel_push, h, h2, herr]
    refine ⟨?_, ?_, ?_⟩
    · show pyGet (kernel_push folder fs (Except.ok d)).resp "status"
        = some (Val.str "error")
      rw [hresp, pyGet_append_none _ _ _ hstat]
      rfl
    · rw [hresp, pyGet_append_none _ _ _ hmsg]
      rfl
    · intro k v hk
      rw [hresp]
      exact pyGet_append_some _ _ _ _ hk

/-- C6 witness: `model_delete` on a payload whose `error` field is the
non-empty string `"quota exceeded"` returns the error envelope with that
value as message and the payload attached under `data`. -/
theorem C6_witness :
    statusError (model_delete "o/m" true (Except.ok payloadWithError)).resp
    ∧ pyGet (model_delete "o/m" true (Except.ok payloadWithError)).resp "message"
        = some (pyGetD payloadWithError "error" Val.vnone)
    ∧ pyGet (model_delete "o/m" true (Except.ok payloadWithError)).resp "data"
        = some (Val.dict payloadWithError) :=
  C6_amended_soft_error_scan.2.1 "o/m" payloadWithError (by decide) (by decide)

theorem ne_empty2 (a b c : String) (h : a ≠ "") : a ++ b ++ c ≠ "" :=
  append_ne_empty _ _ (append_ne_empty _ _ h)

theorem ne_empty3 (a b c d : String) (h : a ≠ "") : a ++ b ++ c ++ d ≠ "" :=
  append_ne_empty _ _ (ne_empty2 _ _ _ h)

/-- C2 amended: whenever validation passes and the delegate call returns a
clean result — the coerced payload carries no error marker (and for
`kernel_pull` the pulled file exists afterwards) — the envelope has status
`"success"` and a non-empty `message`, except for two adapters:
`competition_submit`, whose `message` is the payload's own `message` field
(possibly `None`), and `kernel_push`, whose success envelope is
`{"status": "success", **payload}` and so carries a `message` only when the
payload does. -/
theorem C2_amended_success_envelopes :
    (∀ comps : List String,
      statusSuccess (competitions_list (Except.ok comps)).resp
      ∧ nonEmptyMsg (competitions_list (Except.ok comps)).resp) ∧
    (∀ ks : List Dict,
      statusSuccess (kernels_list (Except.ok ks)).resp
      ∧ nonEmptyMsg (kernels_list (Except.ok ks)).resp) ∧
    (∀ (kernel : String) (d : Dict),
      (kernel == "" || !(matchOwnerSlug kernel)) = false →
      statusSuccess (kernel_list_files kernel (Except.ok d)).resp
      ∧ nonEmptyMsg (kernel_list_files kernel (Except.ok d)).resp) ∧
    (∀ (f m c : String) (d : Dict),
      statusSuccess (competition_submit f m c (Except.ok d)).resp
      ∧ pyGet (competition_submit f m c (Except.ok d)).resp "message"
          = some (pyGetD d "message" Val.vnone)) ∧
    (∀ (folder : String) (fs : FS) (d : Dict),
      badFolder folder fs = false →
      (pyGetD d "error" (Val.str "")).eqEmptyStr = true →
      statusSuccess (dataset_create folder fs (Except.ok d)).resp
      ∧ nonEmptyMsg (dataset_create folder fs (Except.ok d)).resp) ∧
    (∀ (folder : String) (fs : FS),
      badFolder folder fs = false →
      statusSuccess (dataset_initialize_adapter folder fs (Except.ok ())).resp
      ∧ nonEmptyMsg (dataset_initialize_adapter folder fs (Except.ok ())).resp) ∧
    (∀ (ds : String) (path : Option String) (cwd : String),
      statusSuccess (dataset_download_files ds path cwd (Except.ok ())).resp
      ∧ nonEmptyMsg (dataset_download_files ds path cwd (Except.ok ())).resp) ∧
    (∀ (kernel path cwd : String) (fs fsd : FS) (f : String),
      missingSlash kernel = false →
      fsd.pathExists (abspath cwd (joinPath path f)) = true →
      statusSuccess (kernel_pull kernel path cwd fs (Except.ok (f, fsd))).resp
      ∧ nonEmptyMsg (kernel_pull kernel path cwd fs (Except.ok (f, fsd))).resp) ∧
    (∀ (folder : String) (fs : FS) (d : Dict),
      badFolder folder fs = false →
      fs.pathExists (joinPath folder "kernel-metadata.json") = true →
      (pyGetD d "error" Val.vnone).truthy = false →
      hasInvalidField d = false →
      pyGet d "status" = none →
      statusSuccess (kernel_push folder fs (Except.ok d)).resp) ∧
    (∀ (folder : String) (fs : FS),
      statusSuccess (model_initialize_adapter folder fs (Except.ok ())).resp
      ∧ nonEmptyMsg (model_initialize_adapter folder fs (Except.ok ())).resp) ∧
    (∀ (model : String) (path : Option String) (cwd : String) (fs : FS) (d : Dict),
      missingSlash model = false →
      statusSuccess (model_get model path cwd fs (Except.ok d)).resp
      ∧ nonEmptyMsg (model_get model path cwd fs (Except.ok d)).resp) ∧
    (∀ (model : String) (d : Dict),
      missingSlash model = false →
      (pyGetD d "error" Val.vnone).truthy = false →
      statusSuccess (model_delete model true (Except.ok d)).resp
      ∧ nonEmptyMsg (model_delete model true (Except.ok d)).resp) ∧
    (∀ (mi : String) (path : Option String) (cwd : String) (fs : FS) (d : Dict),
      missingSlash mi = false →
      statusSuccess (model_instance_get mi path cwd fs (Except.ok d)).resp
      ∧ nonEmptyMsg (model_instance_get mi path cwd fs (Except.ok d)).resp) ∧
    (∀ (mi : String) (d : Dict),
      missingSlash mi = false →
      (pyGetD d "error" Val.vnone).truthy = false →
      statusSuccess (model_instance_delete mi true (Except.ok d)).resp
      ∧ nonEmptyMsg (model_instance_delete mi true (Except.ok d)).resp) ∧
    (∀ (miv : String) (path : Option String) (cwd : String) (fs : FS),
      missingSlash miv = false →
      statusSuccess (model_instance_version_download miv path cwd fs (Except.ok ())).resp
      ∧ nonEmptyMsg (model_instance_version_download miv path cwd fs (Except.ok ())).resp) ∧
    (∀ (miv : String) (d : Dict),
      missingSlash miv = false →
      (pyGetD d "error" Val.vnone).truthy = false →
      statusSuccess (model_instance_version_delete miv true (Except.ok d)).resp
      ∧ nonEmptyMsg (model_instance_version_delete miv true (Except.ok d)).resp) := by
  refine ⟨?_, ?_, ?_, ?_, ?_, ?_, ?_, ?_, ?_, ?_, ?_, ?_, ?_, ?_, ?_, ?_⟩
  · intro comps
    exact ⟨rfl, ⟨_, rfl, ne_empty2 _ _ _ (by decide)⟩⟩
  · intro ks
    exact ⟨rfl, ⟨_, rfl, ne_empty2 _ _ _ (by decide)⟩⟩
  · intro kernel d h
    have hresp : (kernel_list_files kernel (Except.ok d)).resp
        = [("status", Val.str "success"),
           ("message", Val.str ("Retrieved "
             ++ toString (match pyGetD d "files" (Val.list []) with
                 | Val.list xs => xs
                 | _ => []).length
             ++ " files from kernel: " ++ kernel)),
           ("data", Val.dict d)] := by
      simp [kernel_list_files, h]
    exact ⟨by rw [hresp]; rfl,
      ⟨_, by rw [hresp]; rfl, ne_empty3 _ _ _ _ (by decide)⟩⟩
  · intro f m c d
    exact ⟨rfl, rfl⟩
  · intro folder fs d h hclean
    have hresp : (dataset_create folder fs (Except.ok d)).resp
        = [("status", Val.str "success"),
           ("message", Val.str ("Dataset created successfully from folder: " ++ folder)),
           ("data", Val.dict (pySet d "message"
             (Val.str ("Dataset created successfully from folder: " ++ folder))))] := by
      simp [dataset_create, h, hclean]
    exact ⟨by rw [hresp]; rfl,
      ⟨_, by rw [hresp]; rfl, append_ne_empty _ _ (by decide)⟩⟩
  · intro folder fs h
    have hresp : (dataset_initialize_adapter folder fs (Except.ok ())).resp
        = [("status", Val.str "success"),
           ("message", Val.str ("Initialized dataset in folder: " ++ folder))] := by
      simp [dataset_initialize_adapter, h]
    exact ⟨by rw [hresp]; rfl,
      ⟨_, by rw [hresp]; rfl, append_ne_empty _ _ (by decide)⟩⟩
  · intro ds path cwd
    exact ⟨rfl, ⟨_, rfl, ne_empty3 _ _ _ _ (by decide)⟩⟩
  · intro kernel path cwd fs fsd f h hclean
    have hresp : (kernel_pull kernel path cwd fs (Except.ok (f, fsd))).resp
        = [("status", Val.str "success"),
           ("message", Val.str ("Kernel '" ++ kernel ++ "' downloaded successfully.")),
           ("kernel", Val.str kernel),
           ("saved_path", Val.str (abspath cwd (joinPath path f)))] := by
      simp [kernel_pull, h, hclean]
    exact ⟨by rw [hresp]; rfl,
      ⟨_, by rw [hresp]; rfl, ne_empty2 _ _ _ (by decide)⟩⟩
  · intro folder fs d h h2 herr hinv hstat
    have hresp : (kernel_push folder fs (Except.ok d)).resp
        = [("status", Val.str "success")] ++ d := by
      simp [kernel_push, h, h2, herr, hinv]
    show pyGet (kernel_push folder fs (Except.ok d)).resp "status"
      = some (Val.str "success")
    rw [hresp, pyGet_append_none _ _ _ hstat]
    rfl
  · intro folder fs
    exact ⟨rfl, ⟨_, rfl, append_ne_empty _ _ (by decide)⟩⟩
  · intro model path cwd fs d h
    have hresp : (model_get model path cwd fs (Except.ok d)).resp
        = [("status", Val.str "success"),
           ("message", Val.str ("Model '" ++ model
             ++ "' metadata retrieved and saved successfully.")),
           ("model", Val.str model),
           ("data", Val.dict d),
           ("file_path", Val.str (abspath cwd
             (joinPath (pathOrCwd path cwd) "model-metadata.json")))] := by
      simp [model_get, h]
    exact ⟨by rw [hresp]; rfl,
      ⟨_, by rw [hresp]; rfl, ne_empty2 _ _ _ (by decide)⟩⟩
  · intro model d h herr
    have hresp : (model_delete model true (Except.ok d)).resp
        = [("status", Val.str "success"),
           ("message", Val.str ("Model '" ++ model ++ "' deleted successfully.")),
           ("model", Val.str model),
           ("data", Val.dict d)] := by
      simp [model_delete, h, herr]
    exact ⟨by rw [hresp]; rfl,
      ⟨_, by rw [hresp]; rfl, ne_empty2 _ _ _ (by decide)⟩⟩
  · intro mi path cwd fs d h
    have hresp : (model_instance_get mi path cwd fs (Except.ok d)).resp
        = [("status", Val.str "success"),
           ("message", Val.str ("Model instance '" ++ mi
             ++ "' retrieved and saved successfully.")),
           ("model_instance", Val.str mi),
           ("data", Val.dict d),
           ("file_path", Val.str (abspath cwd
             (joinPath (pathOrCwd path cwd) "model-instance-metadata.json")))] := by
      simp [model_instance_get, h]
    exact ⟨by rw [hresp]; rfl,
      ⟨_, by rw [hresp]; rfl, ne_empty2 _ _ _ (by decide)⟩⟩
  · intro mi d h herr
    have hresp : (model_instance_delete mi true (Except.ok d)).resp
        = [("status", Val.str "success"),
           ("message", Val.str ("Model instance '" ++ mi ++ "' deleted successfully.")),
           ("model_instance", Val.str mi),
           ("data", Val.dict d)] := by
      simp [model_instance_delete, h, herr]
    exact ⟨by rw [hresp]; rfl,
      ⟨_, by rw [hresp]; rfl, ne_empty2 _ _ _ (by decide)⟩⟩
  · intro miv path cwd fs h
    have hresp : (model_instance_version_download miv path cwd fs (Except.ok ())).resp
        = [("status", Val.str "success"),
           ("message", Val.str ("Downloaded model instance version '" ++ miv
             ++ "' successfully.")),
           ("model_instance_version", Val.str miv),
           ("saved_path", Val.str (abspath cwd (pathOrCwd path cwd)))] := by
      simp [model_instance_version_download, h]
    exact ⟨by rw [hresp]; rfl,
      ⟨_, by rw [hresp]; rfl, ne_empty2 _ _ _ (by decide)⟩⟩
  · intro miv d h herr
    have hresp : (model_instance_version_delete miv true (Except.ok d)).resp
        = [("status", Val.str "success"),
           ("message", Val.str ("Model instance version '" ++ miv
             ++ "' deleted successfully.")),
           ("model_instance_version", Val.str miv),
           ("data", Val.dict d)] := by
      simp [model_instance_version_delete, h, herr]
    exact ⟨by rw [hresp]; rfl,
      ⟨_, by rw [hresp]; rfl, ne_empty2 _ _ _ (by decide)⟩⟩

/-- C2 witness: `dataset_create` on an existing folder with a clean delegate
payload yields a success envelope with a non-empty message. -/
theorem C2_witness :
    statusSuccess (dataset_create "/work" fsKernelFolder (Except.ok [])).resp
    ∧ nonEmptyMsg (dataset_create "/work" fsKernelFolder (Except.ok [])).resp :=
  C2_amended_success_envelopes.2.2.2.2.1 "/work" fsKernelFolder []
    (by decide) (by decide)

theorem pyGet_append_isSome (a b : Dict) (k : String)
    (h : (pyGet a k).isSome = true) : (pyGet (a ++ b) k).isSome = true := by
  cases hb : pyGet b k with
  | some v => rw [pyGet_append_some a b k v hb]; rfl
  | none => rw [pyGet_append_none a b k hb]; exact h

/-- C1 amended: every adapter call returns exactly one mapping, and for
every embedded adapter other than `kernel_push` that mapping contains a
`status` key equal to `"success"` or `"error"` and a `message` key, on
every path (validation failure, delegate exception, delegate return).
`kernel_push` splices the coerced delegate payload over its post-delegate
envelopes (`**response_dict`), so there a payload `status` binding would
take precedence — its envelope's status is `"success"` or `"error"`
whenever the payload carries no `status` binding — and its clean-success
envelope `{"status": "success", **payload}` contains a `message` key
exactly when the payload does; its validation, exception and soft-error
envelopes always carry a `message` key. -/
theorem C1_amended_envelope_shape :
    (∀ dres, envelopeOK (competitions_list dres).resp) ∧
    (∀ (f m c : String) (dres : Except String Dict),
      envelopeOK (competition_submit f m c dres).resp) ∧
    (∀ dres, envelopeOK (kernels_list dres).resp) ∧
    (∀ (kernel : String) (dres : Except String Dict),
      envelopeOK (kernel_list_files kernel dres).resp) ∧
    (∀ (kernel path cwd : String) (fs : FS) (dres : Except String (String × FS)),
      envelopeOK (kernel_pull kernel path cwd fs dres).resp) ∧
    (∀ (folder : String) (fs : FS) (dres : Except String Dict),
      envelopeOK (dataset_create folder fs dres).resp) ∧
    (∀ (folder : String) (fs : FS) (dres : Except String Unit),
      envelopeOK (dataset_initialize_adapter folder fs dres).resp) ∧
    (∀ (ds : String) (path : Option String) (cwd : String) (dres : Except String Unit),
      envelopeOK (dataset_download_files ds path cwd dres).resp) ∧
    (∀ (folder : String) (fs : FS) (dres : Except String Unit),
      envelopeOK (model_initialize_adapter folder fs dres).resp) ∧
    (∀ (model : String) (path : Option String) (cwd : String) (fs : FS)
        (dres : Except String Dict),
      envelopeOK (model_get model path cwd fs dres).resp) ∧
    (∀ (model : String) (conf : Bool) (dres : Except String Dict),
      envelopeOK (model_delete model conf dres).resp) ∧
    (∀ (mi : String) (path : Option String) (cwd : String) (fs : FS)
        (dres : Except String Dict),
      envelopeOK (model_instance_get mi path cwd fs dres).resp) ∧
    (∀ (mi : String) (conf : Bool) (dres : Except String Dict),
      envelopeOK (model_instance_delete mi conf dres).resp) ∧
    (∀ (miv : String) (path : Option String) (cwd : String) (fs : FS)
        (dres : Except String Unit),
      envelopeOK (model_instance_version_download miv path cwd fs dres).resp) ∧
    (∀ (miv : String) (conf : Bool) (dres : Except String Dict),
      envelopeOK (model_instance_version_delete miv conf dres).resp) ∧
    (∀ (folder : String) (fs : FS) (e : String),
      envelopeOK (kernel_push folder fs (Except.error e)).resp) ∧
    (∀ (folder : String) (fs : FS) (dres : Except String Dict),
      badFolder folder fs = true → envelopeOK (kernel_push folder fs dres).resp) ∧
    (∀ (folder : String) (fs : FS) (dres : Except String Dict),
      badFolder folder fs = false →
      fs.pathExists (joinPath folder "kernel-metadata.json") = false →
      envelopeOK (kernel_push folder fs dres).resp) ∧
    (∀ (folder : String) (fs : FS) (d : Dict),
      pyGet d "status" = none →
      (pyGet (kernel_push folder fs (Except.ok d)).resp "status"
          = some (Val.str "success")
        ∨ pyGet (kernel_push folder fs (Except.ok d)).resp "status"
          = some (Val.str "error"))) ∧
    (∀ (folder : String) (fs : FS) (d : Dict),
      badFolder folder fs = false →
      fs.pathExists (joinPath folder "kernel-metadata.json") = true →
      ((pyGetD d "error" Val.vnone).truthy = true ∨ hasInvalidField d = true →
        (pyGet (kernel_push folder fs (Except.ok d)).resp "message").isSome = true)
      ∧ ((pyGetD d "error" Val.vnone).truthy = false → hasInvalidField d = false →
        ((pyGet (kernel_push folder fs (Except.ok d)).resp "message").isSome
          ↔ (pyGet d "message").isSome))) := by
  refine ⟨?_, ?_, ?_, ?_, ?_, ?_, ?_, ?_, ?_, ?_, ?_, ?_, ?_, ?_, ?_, ?_, ?_, ?_, ?_, ?_⟩
  · intro dres
    cases dres with
    | ok comps => exact ⟨Or.inl rfl, rfl⟩
    | error e => exact ⟨Or.inr rfl, rfl⟩
  · intro f m c dres
    cases dres with
    | ok d => exact ⟨Or.inl rfl, rfl⟩
    | error e => exact ⟨Or.inr rfl, rfl⟩
  · intro dres
    cases dres with
    | ok ks => exact ⟨Or.inl rfl, rfl⟩
    | error e => exact ⟨Or.inr rfl, rfl⟩
  · intro kernel dres
    cases hval : (kernel == "" || !(matchOwnerSlug kernel)) <;>
      cases dres <;> simp [kernel_list_files, hval, envelopeOK, pyGet]
  · intro kernel path cwd fs dres
    cases hval : missingSlash kernel
    case false =>
      cases dres with
      | ok pr =>
        obtain ⟨f, fsd⟩ := pr
        cases hex : fsd.pathExists (abspath cwd (joinPath path f)) <;>
          simp [kernel_pull, hval, hex, envelopeOK, pyGet]
      | error e => simp [kernel_pull, hval, envelopeOK, pyGet]
    case true =>
      cases dres <;> simp [kernel_pull, hval, envelopeOK, pyGet]
  · intro folder fs dres
    cases hval : badFolder folder fs
    case false =>
      cases dres with
      | ok d =>
        cases hclean : (pyGetD d "error" (Val.str "")).eqEmptyStr <;>
          simp [dataset_create, hval, hclean, envelopeOK, pyGet]
      | error e => simp [dataset_create, hval, envelopeOK, pyGet]
    case true =>
      cases dres <;> simp [dataset_create, hval, envelopeOK, pyGet]
  · intro folder fs dres
    cases hval : badFolder folder fs <;>
      cases dres <;> simp [dataset_initialize_adapter, hval, envelopeOK, pyGet]
  · intro ds path cwd dres
    cases dres with
    | ok u => exact ⟨Or.inl rfl, rfl⟩
    | error e => exact ⟨Or.inr rfl, rfl⟩
  · intro folder fs dres
    cases dres with
    | ok u => exact ⟨Or.inl rfl, rfl⟩
    | error e => exact ⟨Or.inr rfl, rfl⟩
  · intro model path cwd fs dres
    cases hval : missingSlash model <;>
      cases dres <;> simp [model_get, hval, envelopeOK, pyGet]
  · intro model conf dres
    cases hval : missingSlash model
    case false =>
      cases conf
      case false =>
        cases dres <;> simp [model_delete, hval, envelopeOK, pyGet]
      case true =>
        cases dres with
        | ok d =>
          cases herr : (pyGetD d "error" Val.vnone).truthy <;>
            simp [model_delete, hval, herr, envelopeOK, pyGet]
        | error e => simp [model_delete, hval, envelopeOK, pyGet]
    case true =>
      cases dres <;> simp [model_delete, hval, envelopeOK, pyGet]
  · intro mi path cwd fs dres
    cases hval : missingSlash mi <;>
      cases dres <;> simp [model_instance_get, hval, envelopeOK, pyGet]
  · intro mi conf dres
    cases hval : missingSlash mi
    case false =>
      cases conf
      case false =>
        cases dres <;> simp [model_instance_delete, hval, envelopeOK, pyGet]
      case true =>
        cases dres with
        | ok d =>
          cases herr : (pyGetD d "error" Val.vnone).truthy <;>
            simp [model_instance_delete, hval, herr, envelopeOK, pyGet]
        | error e => simp [model_instance_delete, hval, envelopeOK, pyGet]
    case true =>
      cases dres <;> simp [model_instance_delete, hval, envelopeOK, pyGet]
  · intro miv path cwd fs dres
    cases hval : missingSlash miv <;>
      cases dres <;> simp [model_instance_version_download, hval, envelopeOK, pyGet]
  · intro miv conf dres
    cases hval : missingSlash miv
    case false =>
      cases conf
      case false =>
        cases dres <;> simp [model_instance_version_delete, hval, envelopeOK, pyGet]
      case true =>
        cases dres with
        | ok d =>
          cases herr : (pyGetD d "error" Val.vnone).truthy <;>
            simp [model_instance_version_delete, hval, herr, envelopeOK, pyGet]
        | error e => simp [model_instance_version_delete, hval, envelopeOK, pyGet]
    case true =>
      cases dres <;> simp [model_instance_version_delete, hval, envelopeOK, pyGet]
  · intro folder fs e
    cases hval : badFolder folder fs
    case false =>
      cases hmeta : fs.pathExists (joinPath folder "kernel-metadata.json") <;>
        simp [kernel_push, hval, hmeta, envelopeOK, pyGet]
    case true =>
      simp [kernel_push, hval, envelopeOK, pyGet]
  · intro folder fs dres h
    cases dres <;> simp [kernel_push, h, envelopeOK, pyGet]
  · intro folder fs dres h h2
    cases dres <;> simp [kernel_push, h, h2, envelopeOK, pyGet]
  · intro folder fs d hstat
    cases hval : badFolder folder fs
    case true =>
      right
      simp [kernel_push, hval, pyGet]
    case false =>
      cases hmeta : fs.pathExists (joinPath folder "kernel-metadata.json")
      case false =>
        right
        simp [kernel_push, hval, hmeta, pyGet]
      case true =>
        cases herr : (pyGetD d "error" Val.vnone).truthy
        case true =>
          right
          have hresp : (kernel_push folder fs (Except.ok d)).resp
              = [("status", Val.str "error"),
                 ("message", pyGetD d "error" Val.vnone)] ++ d := by
            simp [kernel_push, hval, hmeta, herr]
          rw [hresp, pyGet_append_none _ _ _ hstat]
          rfl
        case false =>
          cases hinv : hasInvalidField d
          case true =>
            right
            have hresp : (kernel_push folder fs (Except.ok d)).resp
                = [("status", Val.str "error"),
                   ("message", Val.str "Validation errors occurred")] ++ d := by
              simp [kernel_push, hval, hmeta, herr, hinv]
            rw [hresp, pyGet_append_none _ _ _ hstat]
            rfl
          case false =>
            left
            have hresp : (kernel_push folder fs (Except.ok d)).resp
                = [("status", Val.str "success")] ++ d := by
              simp [kernel_push, hval, hmeta, herr, hinv]
            rw [hresp, pyGet_append_none _ _ _ hstat]
            rfl
  · intro folder fs d hval hmeta
    constructor
    · intro hbranch
      cases hbranch with
      | inl herr =>
        have hresp : (kernel_push folder fs (Except.ok d)).resp
            = [("status", Val.str "error"),
               ("message", pyGetD d "error" Val.vnone)] ++ d := by
          simp [kernel_push, hval, hmeta, herr]
        rw [hresp]
        exact pyGet_append_isSome _ _ _ rfl
      | inr hinv =>
        cases herr : (pyGetD d "error" Val.vnone).truthy
        case true =>
          have hresp : (kernel_push folder fs (Except.ok d)).resp
              = [("status", Val.str "error"),
                 ("message", pyGetD d "error" Val.vnone)] ++ d := by
            simp [kernel_push, hval, hmeta, herr]
          rw [hresp]
          exact pyGet_append_isSome _ _ _ rfl
        case false =>
          have hresp : (kernel_push folder fs (Except.ok d)).resp
              = [("status", Val.str "error"),
                 ("message", Val.str "Validation errors occurred")] ++ d := by
            simp [kernel_push, hval, hmeta, herr, hinv]
          rw [hresp]
          exact pyGet_append_isSome _ _ _ rfl
    · intro herr hinv
      have hresp : (kernel_push folder fs (Except.ok d)).resp
          = [("status", Val.str "success")] ++ d := by
        simp [kernel_push, hval, hmeta, herr, hinv]
      rw [hresp]
      cases hmsg : pyGet d "message" with
      | some v => rw [pyGet_append_some _ _ _ _ hmsg]
      | none =>
        rw [pyGet_append_none _ _ _ hmsg]
        simp [pyGet]

/-- C1 witness: `model_delete` with a malformed identifier still returns a
single mapping with `status = "error"` and a `message` key. -/
theorem C1_witness :
    envelopeOK (model_delete "nomodel" true (Except.ok [])).resp :=
  (C1_amended_envelope_shape.2.2.2.2.2.2.2.2.2.2.1) "nomodel" true (Except.ok [])
